import Mathlib

/-!
Shallow embedding of the DietGenerator meal-plan solver core.

JavaScript numbers are modelled as exact rationals (`ℚ`); `Math.round` is
modelled as `jsRound` (round half toward positive infinity, as in JS).
The special values produced by division by zero (`NaN`, `Infinity`) are
modelled explicitly by the `JNum` type where the source can produce them
(the percentage computation of `validateDietPlanSpecifications`).
External collaborators (the text-generation proposer, the food-lookup
services, `Date.now`) are modelled as explicit oracle parameters.
-/

/-- JS `Math.round`: round half toward +∞, i.e. `⌊x + 1/2⌋`.
Written via `Rat.num`/`Rat.den` so that it is a plain computable function. -/
def jsRound (x : ℚ) : ℤ := (x + 1/2).num / ((x + 1/2).den : ℤ)

/-- JS `Math.round(x * 10) / 10` (round to one decimal place). -/
def round1 (x : ℚ) : ℚ := (jsRound (x * 10) : ℚ) / 10

/-- Result record of `calculateExactMacros` (src/utils/calculations.ts). -/
structure ExactMacros where
  proteinGrams : ℚ
  carbsGrams : ℚ
  fatGrams : ℚ
  proteinCalories : ℚ
  carbsCalories : ℚ
  fatCalories : ℚ
  totalCalories : ℚ
deriving Repr, DecidableEq

/-- The error message thrown when macro percentages do not sum to 100±0.1. -/
def macroPercentErrorMessage (totalPercent : ℚ) : String :=
  "Macro percentages must add up to 100%. Current total: " ++ toString totalPercent ++ "%"

/-- Core arithmetic of `calculateExactMacros` (the code after the percentage
check), src/utils/calculations.ts lines 296-326. -/
def exactMacrosCore (targetCalories proteinPercent carbsPercent fatPercent : ℚ) : ExactMacros :=
  let proteinCalories : ℤ := jsRound (targetCalories * (proteinPercent / 100))
  let carbsCalories : ℤ := jsRound (targetCalories * (carbsPercent / 100))
  let fatCalories : ℤ := jsRound (targetCalories * (fatPercent / 100))
  let proteinGrams : ℚ := round1 ((proteinCalories : ℚ) / 4)
  let carbsGrams : ℚ := round1 ((carbsCalories : ℚ) / 4)
  let totalCalculatedCalories : ℚ := (proteinCalories : ℚ) + (carbsCalories : ℚ) + (fatCalories : ℚ)
  let calorieDiscrepancy : ℚ := targetCalories - totalCalculatedCalories
  let adjustedFatCalories : ℚ := (fatCalories : ℚ) + calorieDiscrepancy
  let adjustedFatGrams : ℚ := round1 (adjustedFatCalories / 9)
  let finalProteinCalories : ℤ := jsRound (proteinGrams * 4)
  let finalCarbsCalories : ℤ := jsRound (carbsGrams * 4)
  let finalFatCalories : ℤ := jsRound (adjustedFatGrams * 9)
  { proteinGrams := proteinGrams
    carbsGrams := carbsGrams
    fatGrams := adjustedFatGrams
    proteinCalories := (finalProteinCalories : ℚ)
    carbsCalories := (finalCarbsCalories : ℚ)
    fatCalories := (finalFatCalories : ℚ)
    totalCalories := ((finalProteinCalories + finalCarbsCalories + finalFatCalories : ℤ) : ℚ) }

/-- `calculateExactMacros` (src/utils/calculations.ts lines 276-327); throwing
is modelled by `Except.error`. -/
def calculateExactMacros (targetCalories proteinPercent carbsPercent fatPercent : ℚ) :
    Except String ExactMacros :=
  let totalPercent := proteinPercent + carbsPercent + fatPercent
  if |totalPercent - 100| > 1/10 then
    .error (macroPercentErrorMessage totalPercent)
  else
    .ok (exactMacrosCore targetCalories proteinPercent carbsPercent fatPercent)

/-- `validateMacroPercentages` (src/utils/calculations.ts lines 338-345). -/
def validateMacroPercentages (proteinPercent carbsPercent fatPercent : ℚ) : Bool :=
  |proteinPercent + carbsPercent + fatPercent - 100| ≤ 1/10

/-- Result record of `calculateMacroGrams`. -/
structure MacroGrams where
  protein : ℚ
  carbs : ℚ
  fat : ℚ
deriving Repr, DecidableEq

/-- `calculateMacroGrams` (src/utils/calculations.ts lines 348-367). -/
def calculateMacroGrams (totalCalories proteinPercent carbsPercent fatPercent : ℚ) :
    Except String MacroGrams :=
  if !validateMacroPercentages proteinPercent carbsPercent fatPercent then
    .error (macroPercentErrorMessage (proteinPercent + carbsPercent + fatPercent))
  else
    .ok { protein := round1 (totalCalories * (proteinPercent / 100) / 4)
          carbs := round1 (totalCalories * (carbsPercent / 100) / 4)
          fat := round1 (totalCalories * (fatPercent / 100) / 9) }

/-- Targets computed by the prologue of `generateDietPlan`
(src/services/googleAiService.ts lines 760-777). -/
structure DietTargets where
  adjustedTargetCalories : ℚ
  proteinGrams : ℚ
  carbsGrams : ℚ
  adjustedFatGrams : ℚ
  finalProteinCalories : ℚ
  finalCarbsCalories : ℚ
  finalFatCalories : ℚ
  finalTotalCalories : ℚ
deriving Repr, DecidableEq

/-- Arithmetic of the `generateDietPlan` prologue after its percentage check
(src/services/googleAiService.ts lines 764-777). -/
def dietTargetsCore (adjustedTargetCalories proteinPercent carbsPercent fatPercent : ℚ) :
    DietTargets :=
  let proteinCalories : ℤ := jsRound (adjustedTargetCalories * (proteinPercent / 100))
  let carbsCalories : ℤ := jsRound (adjustedTargetCalories * (carbsPercent / 100))
  let fatCalories : ℤ := jsRound (adjustedTargetCalories * (fatPercent / 100))
  let proteinGrams : ℚ := round1 ((proteinCalories : ℚ) / 4)
  let carbsGrams : ℚ := round1 ((carbsCalories : ℚ) / 4)
  let totalCalculatedCalories : ℚ := (proteinCalories : ℚ) + (carbsCalories : ℚ) + (fatCalories : ℚ)
  let calorieDiscrepancy : ℚ := adjustedTargetCalories - totalCalculatedCalories
  let adjustedFatCalories : ℚ := (fatCalories : ℚ) + calorieDiscrepancy
  let adjustedFatGrams : ℚ := round1 (adjustedFatCalories / 9)
  let finalProteinCalories : ℤ := jsRound (proteinGrams * 4)
  let finalCarbsCalories : ℤ := jsRound (carbsGrams * 4)
  let finalFatCalories : ℤ := jsRound (adjustedFatGrams * 9)
  { adjustedTargetCalories := adjustedTargetCalories
    proteinGrams := proteinGrams
    carbsGrams := carbsGrams
    adjustedFatGrams := adjustedFatGrams
    finalProteinCalories := (finalProteinCalories : ℚ)
    finalCarbsCalories := (finalCarbsCalories : ℚ)
    finalFatCalories := (finalFatCalories : ℚ)
    finalTotalCalories := ((finalProteinCalories + finalCarbsCalories + finalFatCalories : ℤ) : ℚ) }

/-- Target prologue of `generateDietPlan` (src/services/googleAiService.ts
lines 760-777): compute adjusted calories, check the percentages, derive the
exact gram targets. -/
def dietTargets (targetCalories deficitSurplus proteinPercent carbsPercent fatPercent : ℚ) :
    Except String DietTargets :=
  let adjustedTargetCalories := targetCalories + deficitSurplus
  let totalMacroPercent := proteinPercent + carbsPercent + fatPercent
  if |totalMacroPercent - 100| > 1/10 then
    .error (macroPercentErrorMessage totalMacroPercent)
  else
    .ok (dietTargetsCore adjustedTargetCalories proteinPercent carbsPercent fatPercent)

/-- An alternative measure record from the food database
(`altMeasures` entries in src/utils/calculations.ts). -/
structure AltMeasure where
  serving_weight : ℚ
  measure : String
  seq : ℚ
  qty : ℚ
deriving Repr, DecidableEq

/-- Optional serving information of a food (src/utils/calculations.ts). -/
structure ServingInfo where
  serving_weight_grams : Option ℚ := none
  serving_qty : Option ℚ := none
  serving_unit : Option String := none
deriving Repr, DecidableEq

/-- A food's nutrient profile per 100 g (`FoodItem` in
src/utils/calculations.ts; numeric id and Arabic name omitted). -/
structure FoodItem where
  name_en : String := ""
  calories_per_100g : ℚ
  protein_g_per_100g : ℚ
  carbs_g_per_100g : ℚ
  fat_g_per_100g : ℚ
  servingInfo : Option ServingInfo := none
  altMeasures : Option (List AltMeasure) := none
deriving Repr, DecidableEq

/-- A portion line inside a meal (`FoodEntry` in src/utils/calculations.ts). -/
structure FoodEntry where
  id : String
  quantity : ℚ
  unit : Option String := none
  isAlternative : Bool := false
  parentId : Option String := none
deriving Repr, DecidableEq

/-- A meal: a named ordered collection of food portions. -/
structure Meal where
  id : String := ""
  name : String := ""
  foods : List FoodEntry
deriving Repr, DecidableEq

/-- The `selectedFoods` lookup (JS object keyed by portion id). -/
def SelectedFoods := String → Option FoodItem

/-- Is `pat` a prefix of the second list? (helper for `jsIncludes`). -/
def charsPrefixOf : List Char → List Char → Bool
  | [], _ => true
  | _ :: _, [] => false
  | a :: as, b :: bs => a = b && charsPrefixOf as bs

/-- Does the text contain `pat` as a contiguous sublist? (helper). -/
def charsContain (pat : List Char) : List Char → Bool
  | [] => charsPrefixOf pat []
  | c :: cs => charsPrefixOf pat (c :: cs) || charsContain pat cs

/-- JS `s.includes(pat)`: substring containment. -/
def jsIncludes (s pat : String) : Bool := charsContain pat.data s.data

/-- Unit category of a conversion entry (src/utils/unitConversions.ts). -/
inductive UnitCategory where
  | weight
  | volume
  | piece
deriving Repr, DecidableEq

/-- One entry of the unit-conversion table (src/utils/unitConversions.ts). -/
structure UnitConversion where
  unit : String
  gramsPerUnit : ℚ
  category : UnitCategory
deriving Repr, DecidableEq

/-- The unit-conversion table (src/utils/unitConversions.ts lines 10-81). -/
def unitConversions : List UnitConversion :=
  [ ⟨"g", 1, .weight⟩, ⟨"gram", 1, .weight⟩, ⟨"grams", 1, .weight⟩,
    ⟨"kg", 1000, .weight⟩, ⟨"kilogram", 1000, .weight⟩,
    ⟨"oz", 28.35, .weight⟩, ⟨"ounce", 28.35, .weight⟩, ⟨"ounces", 28.35, .weight⟩,
    ⟨"lb", 453.59, .weight⟩, ⟨"lbs", 453.59, .weight⟩,
    ⟨"pound", 453.59, .weight⟩, ⟨"pounds", 453.59, .weight⟩,
    ⟨"cup", 240, .volume⟩, ⟨"cups", 240, .volume⟩,
    ⟨"tbsp", 15, .volume⟩, ⟨"tablespoon", 15, .volume⟩, ⟨"tablespoons", 15, .volume⟩,
    ⟨"tsp", 5, .volume⟩, ⟨"teaspoon", 5, .volume⟩, ⟨"teaspoons", 5, .volume⟩,
    ⟨"ml", 1, .volume⟩, ⟨"milliliter", 1, .volume⟩, ⟨"milliliters", 1, .volume⟩,
    ⟨"l", 1000, .volume⟩, ⟨"liter", 1000, .volume⟩, ⟨"liters", 1000, .volume⟩,
    ⟨"fl oz", 30, .volume⟩, ⟨"fluid ounce", 30, .volume⟩, ⟨"fluid ounces", 30, .volume⟩,
    ⟨"pint", 473, .volume⟩, ⟨"pints", 473, .volume⟩,
    ⟨"quart", 946, .volume⟩, ⟨"quarts", 946, .volume⟩,
    ⟨"gallon", 3785, .volume⟩, ⟨"gallons", 3785, .volume⟩,
    ⟨"piece", 0, .piece⟩, ⟨"pieces", 0, .piece⟩, ⟨"slice", 0, .piece⟩, ⟨"slices", 0, .piece⟩,
    ⟨"serving", 0, .piece⟩, ⟨"servings", 0, .piece⟩, ⟨"item", 0, .piece⟩, ⟨"items", 0, .piece⟩,
    ⟨"medium", 0, .piece⟩, ⟨"large", 0, .piece⟩, ⟨"small", 0, .piece⟩, ⟨"whole", 0, .piece⟩,
    ⟨"half", 0, .piece⟩, ⟨"quarter", 0, .piece⟩, ⟨"meatball", 0, .piece⟩, ⟨"meatballs", 0, .piece⟩,
    ⟨"nugget", 0, .piece⟩, ⟨"nuggets", 0, .piece⟩, ⟨"strip", 0, .piece⟩, ⟨"strips", 0, .piece⟩,
    ⟨"patty", 0, .piece⟩, ⟨"patties", 0, .piece⟩, ⟨"fillet", 0, .piece⟩, ⟨"fillets", 0, .piece⟩,
    ⟨"breast", 0, .piece⟩, ⟨"thigh", 0, .piece⟩, ⟨"wing", 0, .piece⟩, ⟨"wings", 0, .piece⟩,
    ⟨"drumstick", 0, .piece⟩, ⟨"drumsticks", 0, .piece⟩ ]

/-- `convertToGrams` (src/utils/unitConversions.ts lines 83-146). JS
truthiness of the optional numeric arguments is modelled by `≠ 0` on the
present value. -/
def convertToGrams (quantity : ℚ) (unit : String) (servingWeightGrams servingQty : Option ℚ)
    (servingUnit : Option String) (altMeasures : Option (List AltMeasure)) : ℚ :=
  if quantity ≤ 0 then 0
  else
    let normalizedUnit := unit.toLower.trim
    let altHit : Option AltMeasure :=
      match altMeasures with
      | some ms =>
        if ms.length > 0 then
          ms.find? (fun m =>
            m.measure.toLower = normalizedUnit || jsIncludes normalizedUnit m.measure.toLower)
        else none
      | none => none
    match altHit with
    | some m => quantity * (m.serving_weight / m.qty)
    | none =>
      let servingHit : Option (ℚ × ℚ) :=
        match servingUnit, servingWeightGrams, servingQty with
        | some su, some sw, some sq =>
          if normalizedUnit = su.toLower ∧ sw ≠ 0 ∧ sq ≠ 0 then some (sw, sq) else none
        | _, _, _ => none
      match servingHit with
      | some (sw, sq) => quantity * (sw / sq)
      | none =>
        match unitConversions.find? (fun c =>
            c.unit.toLower = normalizedUnit || jsIncludes normalizedUnit c.unit.toLower) with
        | none => quantity
        | some conv =>
          match conv.category, servingWeightGrams, servingQty with
          | .piece, some sw, some sq =>
            if sw ≠ 0 ∧ sq ≠ 0 then quantity * (sw / sq)
            else if conv.gramsPerUnit > 0 then quantity * conv.gramsPerUnit
            else quantity
          | _, _, _ =>
            if conv.gramsPerUnit > 0 then quantity * conv.gramsPerUnit
            else quantity

/-- Per-portion macro values (result of `calculateFoodMacros`). -/
structure FoodMacros where
  calories : ℚ
  protein : ℚ
  carbs : ℚ
  fat : ℚ
deriving Repr, DecidableEq

/-- `calculateFoodMacros` (src/utils/calculations.ts lines 64-72). -/
def calculateFoodMacros (food : FoodItem) (quantity : ℚ) : FoodMacros :=
  let multiplier := quantity / 100
  { calories := (jsRound (food.calories_per_100g * multiplier) : ℚ)
    protein := round1 (food.protein_g_per_100g * multiplier)
    carbs := round1 (food.carbs_g_per_100g * multiplier)
    fat := round1 (food.fat_g_per_100g * multiplier) }

/-- Aggregate totals of a meal collection. -/
structure MacroTotals where
  calories : ℚ := 0
  protein : ℚ := 0
  carbs : ℚ := 0
  fat : ℚ := 0
deriving Repr, DecidableEq

/-- One accumulation step of `calculateMealTotals`: alternatives are skipped,
only main foods count (src/unnamed/part_002 lines 168-194). -/
def mealTotalsStep (selectedFoods : SelectedFoods) (totals : MacroTotals)
    (foodEntry : FoodEntry) : MacroTotals :=
  if foodEntry.isAlternative then totals
  else
    match selectedFoods foodEntry.id with
    | none => totals
    | some food =>
      if foodEntry.quantity = 0 then totals
      else
        let unitStr := match foodEntry.unit with
          | some u => if u = "" then "g" else u
          | none => "g"
        let quantityInGrams := convertToGrams foodEntry.quantity unitStr
          (food.servingInfo.bind (·.serving_weight_grams))
          (food.servingInfo.bind (·.serving_qty))
          (food.servingInfo.bind (·.serving_unit))
          food.altMeasures
        let macros := calculateFoodMacros food quantityInGrams
        { calories := totals.calories + macros.calories
          protein := totals.protein + macros.protein
          carbs := totals.carbs + macros.carbs
          fat := totals.fat + macros.fat }

/-- `calculateMealTotals` (src/unnamed/part_002 lines 168-194): reduce over a
meal's foods, skipping portions marked `isAlternative`. -/
def calculateMealTotals (selectedFoods : SelectedFoods) (meal : Meal) : MacroTotals :=
  meal.foods.foldl (mealTotalsStep selectedFoods) {}

/-- A JS number that may be `NaN` or `±Infinity` (produced by the percentage
computation of `validateDietPlanSpecifications` when total calories are 0). -/
inductive JNum where
  | nan
  | posInf
  | negInf
  | fin (q : ℚ)
deriving Repr, DecidableEq

/-- JS division `a / b` including the `b = 0` special cases. -/
def jsDivNum (a b : ℚ) : JNum :=
  if b = 0 then
    if a = 0 then .nan else if 0 < a then .posInf else .negInf
  else .fin (a / b)

/-- Multiply a JS number by a positive rational constant (used for `* 100`). -/
def jnumMulPos (x : JNum) (c : ℚ) : JNum :=
  match x with
  | .nan => .nan
  | .posInf => .posInf
  | .negInf => .negInf
  | .fin q => .fin (q * c)

/-- JS `Math.round` on a possibly non-finite number: `NaN` and `±Infinity`
are fixed points. -/
def jnumRound (x : JNum) : JNum :=
  match x with
  | .fin q => .fin (jsRound q : ℚ)
  | x => x

/-- JS `Math.abs(x - p) > t` where `x` may be `NaN` (every comparison with
`NaN` is false) or `±Infinity` (whose absolute deviation exceeds anything). -/
def jnumDeviationExceeds (x : JNum) (p t : ℚ) : Bool :=
  match x with
  | .nan => false
  | .posInf => true
  | .negInf => true
  | .fin q => |q - p| > t

/-- Display form of a JS number (for interpolated error strings). -/
def jnumToString (x : JNum) : String :=
  match x with
  | .nan => "NaN"
  | .posInf => "Infinity"
  | .negInf => "-Infinity"
  | .fin q => toString q

/-- The totals accumulation loop of `validateDietPlanSpecifications`
(src/services/googleAiService.ts lines 1440-1457): per-line rounded values
are accumulated over every resolvable portion with a non-zero quantity.
Note that the `isAlternative` flag is not consulted here. -/
def accumulateValidationTotals (meals : List Meal) (selectedFoods : SelectedFoods) : MacroTotals :=
  meals.foldl (fun (t : MacroTotals) meal =>
    meal.foods.foldl (fun (t : MacroTotals) food =>
      match selectedFoods food.id with
      | none => t
      | some selectedFood =>
        if food.quantity = (0 : ℚ) then t
        else
          let multiplier := food.quantity / 100
          { calories := t.calories + (jsRound (selectedFood.calories_per_100g * multiplier) : ℚ)
            protein := t.protein + round1 (selectedFood.protein_g_per_100g * multiplier)
            carbs := t.carbs + round1 (selectedFood.carbs_g_per_100g * multiplier)
            fat := t.fat + round1 (selectedFood.fat_g_per_100g * multiplier) }) t) {}

/-- Calorie-deviation error string (src/services/googleAiService.ts line 1467). -/
def calorieDeviationError (targetCalories totalCalories calorieDeviation : ℚ) : String :=
  "❌ CALORIE DEVIATION TOO HIGH: Target " ++ toString targetCalories ++ " kcal, Actual "
    ++ toString totalCalories ++ " kcal, Deviation " ++ toString calorieDeviation
    ++ " kcal (Max allowed: 150 kcal)"

/-- Protein-deviation error string (line 1472). -/
def proteinDeviationError (targetProtein totalProtein proteinDeviation : ℚ) : String :=
  "❌ PROTEIN DEVIATION TOO HIGH: Target " ++ toString targetProtein ++ "g, Actual "
    ++ toString totalProtein ++ "g, Deviation " ++ toString proteinDeviation
    ++ "g (Max allowed: 15g)"

/-- Carbs-deviation error string (line 1476). -/
def carbsDeviationError (targetCarbs totalCarbs carbsDeviation : ℚ) : String :=
  "❌ CARBS DEVIATION TOO HIGH: Target " ++ toString targetCarbs ++ "g, Actual "
    ++ toString totalCarbs ++ "g, Deviation " ++ toString carbsDeviation
    ++ "g (Max allowed: 15g)"

/-- Fat-deviation error string (line 1480). -/
def fatDeviationError (targetFat totalFat fatDeviation : ℚ) : String :=
  "❌ FAT DEVIATION TOO HIGH: Target " ++ toString targetFat ++ "g, Actual "
    ++ toString totalFat ++ "g, Deviation " ++ toString fatDeviation
    ++ "g (Max allowed: 15g)"

/-- Protein-percentage error string (line 1489). -/
def proteinPercentError (proteinPercent : ℚ) (actualProteinPercent : JNum) : String :=
  "❌ PROTEIN PERCENTAGE OFF: Target " ++ toString proteinPercent ++ "%, Actual "
    ++ jnumToString actualProteinPercent ++ "%"

/-- Carbs-percentage error string (line 1493). -/
def carbsPercentError (carbsPercent : ℚ) (actualCarbsPercent : JNum) : String :=
  "❌ CARBS PERCENTAGE OFF: Target " ++ toString carbsPercent ++ "%, Actual "
    ++ jnumToString actualCarbsPercent ++ "%"

/-- Fat-percentage error string (line 1497). -/
def fatPercentError (fatPercent : ℚ) (actualFatPercent : JNum) : String :=
  "❌ FAT PERCENTAGE OFF: Target " ++ toString fatPercent ++ "%, Actual "
    ++ jnumToString actualFatPercent ++ "%"

/-- The `actualTotals` object of a validation result. -/
structure ActualTotals where
  calories : ℚ
  protein : ℚ
  carbs : ℚ
  fat : ℚ
  proteinPercent : JNum
  carbsPercent : JNum
  fatPercent : JNum
deriving Repr, DecidableEq

/-- Result of `validateDietPlanSpecifications`. -/
structure ValidationResult where
  isValid : Bool
  errors : List String
  actualTotals : ActualTotals
deriving Repr, DecidableEq

/-- `validateDietPlanSpecifications` (src/services/googleAiService.ts lines
1428-1524): accumulate actual totals, then apply the fixed absolute and
percentage tolerance checks, collecting all violated thresholds. -/
def validateDietPlanSpecifications (meals : List Meal) (selectedFoods : SelectedFoods)
    (targetCalories targetProtein targetCarbs targetFat
     proteinPercent carbsPercent fatPercent : ℚ) : ValidationResult :=
  let t := accumulateValidationTotals meals selectedFoods
  let calorieDeviation := |t.calories - targetCalories|
  let proteinDeviation := |t.protein - targetProtein|
  let carbsDeviation := |t.carbs - targetCarbs|
  let fatDeviation := |t.fat - targetFat|
  let actualProteinPercent := jnumRound (jnumMulPos (jsDivNum (t.protein * 4) t.calories) 100)
  let actualCarbsPercent := jnumRound (jnumMulPos (jsDivNum (t.carbs * 4) t.calories) 100)
  let actualFatPercent := jnumRound (jnumMulPos (jsDivNum (t.fat * 9) t.calories) 100)
  let errors : List String :=
    (if calorieDeviation > 150 then
      [calorieDeviationError targetCalories t.calories calorieDeviation] else [])
    ++ (if proteinDeviation > 15 then
      [proteinDeviationError targetProtein t.protein proteinDeviation] else [])
    ++ (if carbsDeviation > 15 then
      [carbsDeviationError targetCarbs t.carbs carbsDeviation] else [])
    ++ (if fatDeviation > 15 then
      [fatDeviationError targetFat t.fat fatDeviation] else [])
    ++ (if jnumDeviationExceeds actualProteinPercent proteinPercent 3 then
      [proteinPercentError proteinPercent actualProteinPercent] else [])
    ++ (if jnumDeviationExceeds actualCarbsPercent carbsPercent 3 then
      [carbsPercentError carbsPercent actualCarbsPercent] else [])
    ++ (if jnumDeviationExceeds actualFatPercent fatPercent 3 then
      [fatPercentError fatPercent actualFatPercent] else [])
  { isValid := errors.isEmpty
    errors := errors
    actualTotals :=
      { calories := t.calories
        protein := t.protein
        carbs := t.carbs
        fat := t.fat
        proteinPercent := actualProteinPercent
        carbsPercent := actualCarbsPercent
        fatPercent := actualFatPercent } }

/-- Indexing `A[i][j]` of a (rectangular) matrix stored as rows. -/
def matIdx (A : List (List ℚ)) (i j : ℕ) : ℚ := (A.getD i []).getD j 0

/-- Indexing `b[k]` of a vector. -/
def vecIdx (b : List ℚ) (k : ℕ) : ℚ := b.getD k 0

/-- Precomputed `(AᵗA)[i][j]` of `nnlsSolve`
(src/services/googleAiService.ts lines 1887-1898). -/
def nnlsAtA (A : List (List ℚ)) (i j : ℕ) : ℚ :=
  (List.range A.length).foldl (fun (s : ℚ) k => s + matIdx A k i * matIdx A k j) 0

/-- Precomputed `(Aᵗb)[i]` of `nnlsSolve` (lines 1899-1901). -/
def nnlsAtb (A : List (List ℚ)) (b : List ℚ) (i : ℕ) : ℚ :=
  (List.range A.length).foldl (fun (s : ℚ) k => s + matIdx A k i * vecIdx b k) 0

/-- The per-variable body of one coordinate-descent sweep of `nnlsSolve`
(lines 1909-1921): a Newton-like step using the diagonal curvature estimate,
clamped to ≥ 0, tracking the largest per-variable change. -/
def nnlsStep (AtA : ℕ → ℕ → ℚ) (Atb : ℕ → ℚ) (n : ℕ) (acc : List ℚ × ℚ) (i : ℕ) :
    List ℚ × ℚ :=
  let x := acc.1
  let g := -Atb i + (List.range n).foldl (fun (s : ℚ) j => s + AtA i j * x.getD j 0) 0
  let denom := if AtA i i > 1/1000000000 then AtA i i else 1/1000000000
  let step := -g / denom
  let raw := x.getD i 0 + step
  let newVal := if raw < 0 then (0 : ℚ) else raw
  let change := |newVal - x.getD i 0|
  (x.set i newVal, max acc.2 change)

/-- One coordinate-descent sweep of `nnlsSolve` (lines 1908-1921). -/
def nnlsSweep (AtA : ℕ → ℕ → ℚ) (Atb : ℕ → ℚ) (n : ℕ) (x : List ℚ) : List ℚ × ℚ :=
  (List.range n).foldl (nnlsStep AtA Atb n) (x, 0)

/-- The bounded fixed-point loop of `nnlsSolve` (lines 1907-1923): run sweeps
until the largest change drops below `1e-4` or the iteration cap is hit. -/
def nnlsIterate (AtA : ℕ → ℕ → ℚ) (Atb : ℕ → ℚ) (n : ℕ) : ℕ → List ℚ → List ℚ
  | 0, x => x
  | fuel + 1, x =>
    let sw := nnlsSweep AtA Atb n x
    if sw.2 < 1/10000 then sw.1 else nnlsIterate AtA Atb n fuel sw.1

/-- `nnlsSolve` (src/services/googleAiService.ts lines 1877-1929): bounded
non-negative least squares.  With zero candidate columns it returns the empty
vector immediately; otherwise it runs the sweep loop from the all-zero start
and treats an all-zero result (`sum ≤ 0`) as "no solution" (`none`). -/
def nnlsSolve (A : List (List ℚ)) (b : List ℚ) (maxIter : ℕ := 500) : Option (List ℚ) :=
  let n := (A.headD []).length
  if n = 0 then some []
  else
    let x := nnlsIterate (nnlsAtA A) (nnlsAtb A b) n maxIter (List.replicate n 0)
    if x.sum ≤ 0 then none else some x

/-- One of the three macro dimensions (the `'protein' | 'carbs' | 'fat'`
string union in the source). -/
inductive MacroKind where
  | protein
  | carbs
  | fat
deriving Repr, DecidableEq

/-- Select a macro field of a totals/targets record. -/
def macroField (t : MacroTotals) (dim : MacroKind) : ℚ :=
  match dim with
  | .protein => t.protein
  | .carbs => t.carbs
  | .fat => t.fat

/-- The shared raw totals accumulation used by `redistributePortionsForMacros`
(`computeTotals`, lines 1592-1606) and by `macroCorrectionLoop` (lines
1965-1980): calories are rounded per line, the macro grams accumulate
unrounded. -/
def rawComputeTotals (selectedFoods : SelectedFoods) (meals : List Meal) : MacroTotals :=
  meals.foldl (fun (acc : MacroTotals) meal =>
    meal.foods.foldl (fun (acc : MacroTotals) food =>
      match selectedFoods food.id with
      | none => acc
      | some sf =>
        if food.quantity = (0 : ℚ) then acc
        else
          let mult := food.quantity / 100
          { calories := acc.calories + (jsRound (sf.calories_per_100g * mult) : ℚ)
            protein := acc.protein + sf.protein_g_per_100g * mult
            carbs := acc.carbs + sf.carbs_g_per_100g * mult
            fat := acc.fat + sf.fat_g_per_100g * mult }) acc) {}

/-- `computeTotals` inside `redistributePortionsForMacros` (lines 1592-1606):
raw accumulation with the macro sums rounded to one decimal at the end. -/
def rdComputeTotals (selectedFoods : SelectedFoods) (meals : List Meal) : MacroTotals :=
  let raw := rawComputeTotals selectedFoods meals
  { calories := raw.calories
    protein := round1 raw.protein
    carbs := round1 raw.carbs
    fat := round1 raw.fat }

/-- A candidate food line for greedy redistribution (lines 1623-1635). -/
structure RdCandidate where
  mealIdx : ℕ
  foodIdx : ℕ
  id : String
  name_en : String
  perCalProtein : ℚ
  perCalCarbs : ℚ
  perCalFat : ℚ
  qty : ℚ
deriving Repr, DecidableEq

/-- Build the candidate list of `redistributePortionsForMacros` (lines
1622-1635): every resolvable portion with non-zero quantity and positive
calories per gram, with its macro-per-calorie efficiency metrics.
(The JS guards `(x || 0)` on the profile fields are identities on `ℚ`.) -/
def rdBuildCandidates (selectedFoods : SelectedFoods) (meals : List Meal) : List RdCandidate :=
  meals.enum.flatMap (fun mi_meal =>
    mi_meal.2.foods.enum.filterMap (fun fi_food =>
      match selectedFoods fi_food.2.id with
      | none => none
      | some sf =>
        if fi_food.2.quantity = (0 : ℚ) then none
        else
          let calPerGram := sf.calories_per_100g / 100
          if calPerGram ≤ 0 then none
          else some
            { mealIdx := mi_meal.1
              foodIdx := fi_food.1
              id := fi_food.2.id
              name_en := sf.name_en
              perCalProtein := sf.protein_g_per_100g / 100 / calPerGram
              perCalCarbs := sf.carbs_g_per_100g / 100 / calPerGram
              perCalFat := sf.fat_g_per_100g / 100 / calPerGram
              qty := fi_food.2.quantity }))

/-- The per-candidate sort metric of `adjustFor` (lines 1644-1648). -/
def rdMetric (dim : MacroKind) (c : RdCandidate) : ℚ :=
  match dim with
  | .protein => c.perCalProtein
  | .carbs => c.perCalCarbs
  | .fat => c.perCalFat

/-- In-place update of one list element (JS index assignment). -/
def listModify (f : α → α) : ℕ → List α → List α
  | _, [] => []
  | 0, a :: l => f a :: l
  | n + 1, a :: l => a :: listModify f n l

/-- `newMeals[mi].foods[fi].quantity = q` (line 1658). -/
def rdSetQuantity (meals : List Meal) (mi fi : ℕ) (q : ℚ) : List Meal :=
  listModify (fun meal =>
    { meal with foods := listModify (fun food => { food with quantity := q }) fi meal.foods }) mi meals

/-- `newMeals[mi].foods[fi].quantity || 0` (line 1656). -/
def rdQuantityAt (meals : List Meal) (mi fi : ℕ) : ℚ :=
  ((meals.getD mi { foods := [] }).foods.getD fi { id := "", quantity := 0 }).quantity

/-- The candidate-iteration body of `adjustFor` (lines 1651-1671): try a
bounded percentage nudge on each candidate in sorted order, keep the first
change that strictly reduces the macro's deviation, revert otherwise. -/
def rdAdjustForGo (selectedFoods : SelectedFoods) (targets : MacroTotals) (dim : MacroKind)
    (diff maxPercent : ℚ) : List RdCandidate → List Meal → List Meal
  | [], meals => meals
  | c :: rest, meals =>
    let sign : ℚ := if diff > 0 then 1 else -1
    let pct := sign * (min maxPercent (max 2 (if |diff| > 50 then (jsRound maxPercent : ℚ) else 6)) / 100)
    let currentQty := rdQuantityAt meals c.mealIdx c.foodIdx
    let newQty := max 1 ((jsRound (currentQty * (1 + pct)) : ℚ))
    let meals2 := rdSetQuantity meals c.mealIdx c.foodIdx newQty
    let totals2 := rdComputeTotals selectedFoods meals2
    let newDiff := macroField targets dim - macroField totals2 dim
    if |newDiff| < |diff| then meals2
    else rdAdjustForGo selectedFoods targets dim diff maxPercent rest meals

/-- `adjustFor` (lines 1641-1672): skip small deviations, sort candidates by
the macro's grams-per-calorie efficiency (descending, stable, as JS sort with
a consistent comparator), then try candidates in order. -/
def rdAdjustFor (selectedFoods : SelectedFoods) (targets : MacroTotals) (dim : MacroKind)
    (diff maxPercent : ℚ) (candidates : List RdCandidate) (meals : List Meal) : List Meal :=
  if |diff| < 5 then meals
  else
    let sorted := candidates.mergeSort (fun a b => decide (rdMetric dim b ≤ rdMetric dim a))
    rdAdjustForGo selectedFoods targets dim diff maxPercent sorted meals

/-- The iteration loop of `redistributePortionsForMacros` (lines 1613-1679):
stop early once within the tighter secondary tolerances or when no candidates
exist, otherwise adjust the macro with the largest absolute deviation. -/
def rdLoop (selectedFoods : SelectedFoods) (targets : MacroTotals) (maxPercent : ℚ) :
    ℕ → List Meal → List Meal
  | 0, meals => meals
  | fuel + 1, meals =>
    let totals := rdComputeTotals selectedFoods meals
    let protDiff := targets.protein - totals.protein
    let carbDiff := targets.carbs - totals.carbs
    let fatDiff := targets.fat - totals.fat
    if |protDiff| ≤ 10 ∧ |carbDiff| ≤ 10 ∧ |fatDiff| ≤ 8 then meals
    else
      let candidates := rdBuildCandidates selectedFoods meals
      if candidates.isEmpty then meals
      else
        let meals2 :=
          if |protDiff| ≥ |carbDiff| ∧ |protDiff| ≥ |fatDiff| then
            rdAdjustFor selectedFoods targets .protein protDiff maxPercent candidates meals
          else if |carbDiff| ≥ |protDiff| ∧ |carbDiff| ≥ |fatDiff| then
            rdAdjustFor selectedFoods targets .carbs carbDiff maxPercent candidates meals
          else
            rdAdjustFor selectedFoods targets .fat fatDiff maxPercent candidates meals
        rdLoop selectedFoods targets maxPercent fuel meals2

/-- The final calorie recomputation of `redistributePortionsForMacros`
(lines 1682-1690). -/
def rdFinalCalories (selectedFoods : SelectedFoods) (meals : List Meal) : ℚ :=
  meals.foldl (fun (cals : ℚ) meal =>
    meal.foods.foldl (fun (cals : ℚ) food =>
      match selectedFoods food.id with
      | none => cals
      | some sf =>
        if food.quantity = (0 : ℚ) then cals
        else cals + (jsRound (sf.calories_per_100g * (food.quantity / 100)) : ℚ)) cals) 0

/-- `redistributePortionsForMacros` (src/services/googleAiService.ts lines
1579-1698): refuse when current calories are more than 200 kcal from target,
run the bounded greedy loop, and refuse again if the adjusted plan's calories
drifted more than 200 kcal from target. -/
def redistributePortionsForMacros (meals : List Meal) (selectedFoods : SelectedFoods)
    (targets : MacroTotals) (maxPercentChangePerFood : ℚ := 20) (iterations : ℕ := 5) :
    Option (List Meal) :=
  let totals := rdComputeTotals selectedFoods meals
  if |totals.calories - targets.calories| > 200 then none
  else
    let newMeals := rdLoop selectedFoods targets maxPercentChangePerFood iterations meals
    let finalCalories := rdFinalCalories selectedFoods newMeals
    if |finalCalories - targets.calories| > 200 then none
    else some newMeals

/-- A profile record of the macro-correction machinery (the 4-field shape of
`macroProfileCache` values and `FALLBACK_PROFILES` entries). -/
structure MacroProfile where
  calories_per_100g : ℚ
  protein_g_per_100g : ℚ
  carbs_g_per_100g : ℚ
  fat_g_per_100g : ℚ
deriving Repr, DecidableEq

/-- One entry of `PURE_MACRO_CANDIDATES` (its `macro` tag field). -/
structure MacroCandidateSpec where
  name : String
  macroKind : MacroKind
deriving Repr, DecidableEq

/-- `PURE_MACRO_CANDIDATES` (src/services/googleAiService.ts lines 1932-1942). -/
def PURE_MACRO_CANDIDATES : List MacroCandidateSpec :=
  [ ⟨"whey protein, isolate", .protein⟩
  , ⟨"egg, white, raw", .protein⟩
  , ⟨"chicken breast, skinless", .protein⟩
  , ⟨"brown rice, cooked", .carbs⟩
  , ⟨"oats, rolled", .carbs⟩
  , ⟨"banana, raw", .carbs⟩
  , ⟨"olive oil", .fat⟩
  , ⟨"avocado, raw", .fat⟩
  , ⟨"butter", .fat⟩ ]

/-- `FALLBACK_PROFILES` (src/services/googleAiService.ts lines 1945-1955):
built-in nutrient profiles for the pure-macro candidate foods. -/
def FALLBACK_PROFILES (key : String) : Option MacroProfile :=
  if key = "whey protein, isolate" then some ⟨400, 80, 8, 2⟩
  else if key = "egg, white, raw" then some ⟨52, 11, 0.7, 0.2⟩
  else if key = "chicken breast, skinless" then some ⟨165, 31, 0, 3.6⟩
  else if key = "brown rice, cooked" then some ⟨123, 2.7, 25.6, 1⟩
  else if key = "oats, rolled" then some ⟨389, 16.9, 66.3, 6.9⟩
  else if key = "banana, raw" then some ⟨89, 1.1, 22.8, 0.3⟩
  else if key = "olive oil" then some ⟨884, 0, 0, 100⟩
  else if key = "avocado, raw" then some ⟨160, 2, 9, 15⟩
  else if key = "butter" then some ⟨717, 0.9, 0.1, 81⟩
  else none

/-- A computed correction line (`correctionFoods` entries, line 2039). -/
structure CorrectionFood where
  name : String
  grams : ℚ
  profile : MacroProfile
deriving Repr, DecidableEq

/-- Result of `macroCorrectionLoop` (the untyped `details` debug payload of
the source is not modelled). -/
structure CorrectionResult where
  meals : List Meal
  selectedFoods : SelectedFoods
  correctionMealAdded : Bool

/-- The greedy per-macro fallback of `macroCorrectionLoop` (lines 2050-2066):
JS `Array.reduce` without initial value, taking the head as the seed.  A
degenerate profile whose best candidate has a zero macro density would yield
an `Infinity` gram amount in JS; with rational division it yields 0 grams and
the line is dropped. -/
def mclGreedyPick (profiles : List (String × MacroProfile)) (density : MacroProfile → ℚ)
    (deficitAmount : ℚ) : List CorrectionFood :=
  match profiles with
  | [] => []
  | p0 :: rest =>
    let best := rest.foldl (fun a b => if density b.2 > density a.2 then b else a) p0
    let grams := max 0 ((jsRound (deficitAmount / (density best.2 / 100)) : ℚ))
    if grams > 0 then [⟨best.1, grams, best.2⟩] else []

/-- The correction-building tail of `macroCorrectionLoop` (lines 1997-2102),
run once the plan is known to be outside the no-op tolerances: select
macro-dense candidates for the deficient macros, solve via NNLS (greedy
per-macro fallback), cap the added calories, and append the correction meal. -/
def macroCorrectionBuild (meals : List Meal) (selectedFoods : SelectedFoods)
    (fetchProfile : String → Option MacroProfile) (now : ℕ)
    (maxCandidates : ℕ) (maxCorrectionCalories : ℚ) (deficit : MacroTotals) :
    CorrectionResult :=
  let needProtein := deficit.protein > 1
  let needCarbs := deficit.carbs > 1
  let needFat := deficit.fat > 1
  let candidates := PURE_MACRO_CANDIDATES.filter (fun c =>
    (c.macroKind = .protein ∧ needProtein) ∨ (c.macroKind = .carbs ∧ needCarbs)
      ∨ (c.macroKind = .fat ∧ needFat))
  let picked := candidates.take maxCandidates
  let profiles : List (String × MacroProfile) :=
    picked.filterMap (fun c => (fetchProfile c.name).map (fun p => (c.name, p)))
  if profiles.isEmpty then
    { meals := meals, selectedFoods := selectedFoods, correctionMealAdded := false }
  else
    let A : List (List ℚ) :=
      [ profiles.map (fun p => p.2.protein_g_per_100g / 100)
      , profiles.map (fun p => p.2.carbs_g_per_100g / 100)
      , profiles.map (fun p => p.2.fat_g_per_100g / 100) ]
    let B : List ℚ := [deficit.protein, deficit.carbs, deficit.fat]
    let solution := nnlsSolve A B
    let fromSolver : List CorrectionFood :=
      match solution with
      | some sol =>
        if sol.length = profiles.length then
          (sol.zip profiles).filterMap (fun sp =>
            let grams := max 0 ((jsRound sp.1 : ℚ))
            if grams > 0 then some ⟨sp.2.1, grams, sp.2.2⟩ else none)
        else []
      | none => []
    let correctionFoods :=
      if fromSolver.isEmpty then
        (if needProtein then
          mclGreedyPick profiles (fun p => p.protein_g_per_100g) deficit.protein else [])
        ++ (if needCarbs then
          mclGreedyPick profiles (fun p => p.carbs_g_per_100g) deficit.carbs else [])
        ++ (if needFat then
          mclGreedyPick profiles (fun p => p.fat_g_per_100g) deficit.fat else [])
      else fromSolver
    if correctionFoods.isEmpty then
      { meals := meals, selectedFoods := selectedFoods, correctionMealAdded := false }
    else
      let correctionCalories := correctionFoods.foldl
        (fun (s : ℚ) cf => s + (jsRound (cf.profile.calories_per_100g * cf.grams / 100) : ℚ)) 0
      let cappedFoods :=
        if correctionCalories > maxCorrectionCalories then
          let scale := maxCorrectionCalories / correctionCalories
          correctionFoods.map (fun cf => { cf with grams := max 1 ((jsRound (cf.grams * scale) : ℚ)) })
        else correctionFoods
      let correctionMealId := "correction-meal-" ++ toString now
      let entries := cappedFoods.enum.map (fun icf =>
        ("correction-food-" ++ toString now ++ "-" ++ toString icf.1, icf.2))
      let selectedFoods2 : SelectedFoods := fun key =>
        match entries.find? (fun e => e.1 = key) with
        | some e => some
          { name_en := e.2.name
            calories_per_100g := e.2.profile.calories_per_100g
            protein_g_per_100g := e.2.profile.protein_g_per_100g
            carbs_g_per_100g := e.2.profile.carbs_g_per_100g
            fat_g_per_100g := e.2.profile.fat_g_per_100g }
        | none => selectedFoods key
      let correctionMeal : Meal :=
        { id := correctionMealId
          name := "Macro correction"
          foods := entries.map (fun e => { id := e.1, quantity := e.2.grams, unit := some "g" }) }
      { meals := meals ++ [correctionMeal]
        selectedFoods := selectedFoods2
        correctionMealAdded := true }

/-- `macroCorrectionLoop` (src/services/googleAiService.ts lines 1958-2103).
The async `fetchAndCacheProfile` chain (cache → built-in fallbacks → external
food APIs) is modelled by the `fetchProfile` oracle, and `Date.now()` /
`Math.random()` pseudo-id generation by the `now` parameter plus the food's
position.  Compute the raw totals and rounded deficits; within tolerance the
plan is returned untouched, otherwise the correction tail runs. -/
def macroCorrectionLoop (meals : List Meal) (selectedFoods : SelectedFoods)
    (targets : MacroTotals) (fetchProfile : String → Option MacroProfile) (now : ℕ)
    (maxCandidates : ℕ := 3) (maxCorrectionCalories : ℚ := 800) : CorrectionResult :=
  let totals := rawComputeTotals selectedFoods meals
  let deficit : MacroTotals :=
    { calories := targets.calories - totals.calories
      protein := round1 (targets.protein - totals.protein)
      carbs := round1 (targets.carbs - totals.carbs)
      fat := round1 (targets.fat - totals.fat) }
  let needProtein := deficit.protein > 1
  let needCarbs := deficit.carbs > 1
  let needFat := deficit.fat > 1
  if ¬needProtein ∧ ¬needCarbs ∧ ¬needFat ∧ |deficit.calories| ≤ 50 then
    { meals := meals, selectedFoods := selectedFoods, correctionMealAdded := false }
  else
    macroCorrectionBuild meals selectedFoods fetchProfile now maxCandidates
      maxCorrectionCalories deficit

/-- Outcome of one proposer attempt inside `generateDietPlan`: a candidate
plan, a `null` result, or a thrown error (with its quota flag). -/
inductive AttemptOutcome where
  | plan (meals : List Meal) (selectedFoods : SelectedFoods) (notes reasoning : String)
  | noResult
  | failed (message : String) (isQuota : Bool)

/-- A successfully generated plan returned by `generateDietPlan`. -/
structure GeneratedPlan where
  meals : List Meal
  selectedFoods : SelectedFoods
  notes : String
  reasoning : String

/-- The fixed attempt cap of `generateDietPlan` (line 781). -/
def maxAttempts : ℕ := 10

/-- The error thrown by `generateDietPlan` when all attempts are exhausted
(line 870). -/
def attemptsExhaustedMessage : String :=
  "AI failed to generate a diet plan meeting exact specifications after "
    ++ toString maxAttempts ++ " attempts."

/-- The attempt loop of `generateDietPlan` (lines 784-868) over the remaining
attempt numbers.  The two proposer helpers (`generateInitialDietPlan`,
`intelligentlyAdjustDietPlan`) are external calls, modelled by the `oracle`;
a quota-flagged error is rethrown, any other failure consumes the attempt. -/
def generateDietPlanLoop (oracle : ℕ → AttemptOutcome) (t : DietTargets)
    (proteinPercent carbsPercent fatPercent : ℚ) :
    List ℕ → Except String (Option GeneratedPlan)
  | [] => .error attemptsExhaustedMessage
  | attempt :: rest =>
    match oracle attempt with
    | .noResult => generateDietPlanLoop oracle t proteinPercent carbsPercent fatPercent rest
    | .failed msg isQuota =>
      if isQuota then .error msg
      else generateDietPlanLoop oracle t proteinPercent carbsPercent fatPercent rest
    | .plan meals selectedFoods notes reasoning =>
      let validation := validateDietPlanSpecifications meals selectedFoods
        t.adjustedTargetCalories t.proteinGrams t.carbsGrams t.adjustedFatGrams
        proteinPercent carbsPercent fatPercent
      if validation.isValid then .ok (some ⟨meals, selectedFoods, notes, reasoning⟩)
      else generateDietPlanLoop oracle t proteinPercent carbsPercent fatPercent rest

/-- `generateDietPlan` (src/services/googleAiService.ts lines 735-871):
return `null` when the AI service is unavailable, fail fast on a bad macro
split, otherwise run up to `maxAttempts` proposer attempts, accepting the
first plan that passes strict validation. -/
def generateDietPlan (aiAvailable : Bool) (targetCalories deficitSurplus
    proteinPercent carbsPercent fatPercent : ℚ) (oracle : ℕ → AttemptOutcome) :
    Except String (Option GeneratedPlan) :=
  if !aiAvailable then .ok none
  else
    match dietTargets targetCalories deficitSurplus proteinPercent carbsPercent fatPercent with
    | .error e => .error e
    | .ok t =>
      generateDietPlanLoop oracle t proteinPercent carbsPercent fatPercent
        (List.range' 1 maxAttempts)

theorem jsRound_eq_floor (x : ℚ) : jsRound x = ⌊x + 1/2⌋ := by
  rw [jsRound, Rat.floor_def]

/-- Rounding a gram value derived from an integer calorie amount `a` (at 4
kcal per gram, one decimal) and recomputing calories returns exactly `a`. -/
theorem jsRound_grams4 (a : ℤ) : jsRound (round1 ((a : ℚ) / 4) * 4) = a := by
  have h1 : jsRound ((a : ℚ) / 4 * 10) = (5 * a + 1) / 2 := by
    rw [jsRound_eq_floor]
    have h : (a : ℚ) / 4 * 10 + 1 / 2 = ((5 * a + 1 : ℤ) : ℚ) / ((2 : ℕ) : ℚ) := by
      push_cast; ring
    rw [h, Rat.floor_intCast_div_natCast]
    norm_num
  rw [round1, h1]
  have h2 : jsRound (((5 * a + 1) / 2 : ℤ) / (10 : ℚ) * 4) = (4 * ((5 * a + 1) / 2) + 5) / 10 := by
    rw [jsRound_eq_floor]
    have h : (((5 * a + 1) / 2 : ℤ) : ℚ) / 10 * 4 + 1 / 2
        = ((4 * ((5 * a + 1) / 2) + 5 : ℤ) : ℚ) / ((10 : ℕ) : ℚ) := by
      push_cast; ring
    rw [h, Rat.floor_intCast_div_natCast]
    norm_num
  rw [h2]
  omega

/-- Same round-trip at 9 kcal per gram (the fat divisor). -/
theorem jsRound_grams9 (a : ℤ) : jsRound (round1 ((a : ℚ) / 9) * 9) = a := by
  have h1 : jsRound ((a : ℚ) / 9 * 10) = (20 * a + 9) / 18 := by
    rw [jsRound_eq_floor]
    have h : (a : ℚ) / 9 * 10 + 1 / 2 = ((20 * a + 9 : ℤ) : ℚ) / ((18 : ℕ) : ℚ) := by
      push_cast; ring
    rw [h, Rat.floor_intCast_div_natCast]
    norm_num
  rw [round1, h1]
  have h2 : jsRound (((20 * a + 9) / 18 : ℤ) / (10 : ℚ) * 9)
      = (9 * ((20 * a + 9) / 18) + 5) / 10 := by
    rw [jsRound_eq_floor]
    have h : (((20 * a + 9) / 18 : ℤ) : ℚ) / 10 * 9 + 1 / 2
        = ((9 * ((20 * a + 9) / 18) + 5 : ℤ) : ℚ) / ((10 : ℕ) : ℚ) := by
      push_cast; ring
    rw [h, Rat.floor_intCast_div_natCast]
    norm_num
  rw [h2]
  omega

/-- The discrepancy-adjusted fat calories are the integer `T - PC - CC`. -/
theorem adjustedFat_eq_int (T PC CC FC : ℤ) :
    (FC : ℚ) + ((T : ℚ) - ((PC : ℚ) + (CC : ℚ) + (FC : ℚ))) = ((T - PC - CC : ℤ) : ℚ) := by
  push_cast; ring

/-- For an integer target, `exactMacrosCore` recovers the target exactly:
the three final macro-calorie components sum to the target. -/
theorem exactMacrosCore_int_target (T : ℤ) (p c f : ℚ) :
    (exactMacrosCore (T : ℚ) p c f).proteinCalories
        + (exactMacrosCore (T : ℚ) p c f).carbsCalories
        + (exactMacrosCore (T : ℚ) p c f).fatCalories = (T : ℚ)
      ∧ (exactMacrosCore (T : ℚ) p c f).totalCalories = (T : ℚ) := by
  simp only [exactMacrosCore]
  rw [adjustedFat_eq_int T (jsRound ((T : ℚ) * (p / 100))) (jsRound ((T : ℚ) * (c / 100)))
    (jsRound ((T : ℚ) * (f / 100)))]
  rw [jsRound_grams4, jsRound_grams4, jsRound_grams9]
  constructor
  · push_cast; ring
  · push_cast; ring

/-- Same exactness for the arithmetic of the `generateDietPlan` prologue. -/
theorem dietTargetsCore_int_target (T : ℤ) (p c f : ℚ) :
    (dietTargetsCore (T : ℚ) p c f).finalProteinCalories
        + (dietTargetsCore (T : ℚ) p c f).finalCarbsCalories
        + (dietTargetsCore (T : ℚ) p c f).finalFatCalories = (T : ℚ)
      ∧ (dietTargetsCore (T : ℚ) p c f).finalTotalCalories = (T : ℚ) := by
  simp only [dietTargetsCore]
  rw [adjustedFat_eq_int T (jsRound ((T : ℚ) * (p / 100))) (jsRound ((T : ℚ) * (c / 100)))
    (jsRound ((T : ℚ) * (f / 100)))]
  rw [jsRound_grams4, jsRound_grams4, jsRound_grams9]
  constructor
  · push_cast; ring
  · push_cast; ring

/-- C1 counterexample: with the fractional adjusted target 2000.5 kcal (a
valid "real" input whose percentages sum to 100 exactly), the recomputed
final calories are 2000, not the adjusted target. -/
theorem calculateExactMacros_fractional_target_cex :
    |((40 : ℚ) + 35 + 25) - 100| ≤ 1/10 ∧
    (calculateExactMacros (4001/2 : ℚ) 40 35 25).map ExactMacros.totalCalories = .ok 2000 ∧
    (2000 : ℚ) ≠ (4001/2 : ℚ) := by
  refine ⟨by norm_num, ?_, by norm_num⟩
  have hc : ¬(|((40 : ℚ) + 35 + 25) - 100| > 1/10) := by norm_num
  simp only [calculateExactMacros, if_neg hc, Except.map]
  simp only [exactMacrosCore, round1, jsRound_eq_floor]
  norm_num

/-- C1 (amended to integer adjusted targets): for every integer adjusted
target `T` and percentages summing to 100±0.1, both `calculateExactMacros`
and the `generateDietPlan` target prologue produce final per-macro calories
`round(proteinGrams*4)`, `round(carbsGrams*4)`, `round(adjustedFatGrams*9)`
that sum exactly to `T`, the rounding remainder having gone to fat. -/
theorem targets_recover_integer_adjusted_target (T : ℤ) (p c f : ℚ)
    (hsum : |p + c + f - 100| ≤ 1/10) :
    (∃ r : ExactMacros, calculateExactMacros (T : ℚ) p c f = .ok r ∧
        r.proteinCalories + r.carbsCalories + r.fatCalories = (T : ℚ) ∧
        r.totalCalories = (T : ℚ)) ∧
    (∀ targetCalories deficitSurplus : ℚ, targetCalories + deficitSurplus = (T : ℚ) →
      ∃ t : DietTargets, dietTargets targetCalories deficitSurplus p c f = .ok t ∧
        t.finalProteinCalories + t.finalCarbsCalories + t.finalFatCalories = (T : ℚ) ∧
        t.finalTotalCalories = (T : ℚ)) := by
  have hc : ¬(|p + c + f - 100| > 1/10) := not_lt.mpr hsum
  constructor
  · refine ⟨exactMacrosCore (T : ℚ) p c f, ?_, (exactMacrosCore_int_target T p c f).1,
      (exactMacrosCore_int_target T p c f).2⟩
    simp only [calculateExactMacros, if_neg hc]
  · intro targetCalories deficitSurplus hT
    refine ⟨dietTargetsCore (T : ℚ) p c f, ?_, (dietTargetsCore_int_target T p c f).1,
      (dietTargetsCore_int_target T p c f).2⟩
    simp only [dietTargets, if_neg hc, hT]

/-- Witness for C1's amended theorem at the spec's worked example
(base 3000, adjustment −400, split 40/35/25). -/
theorem targets_recover_integer_adjusted_target_witness :
    (∃ r : ExactMacros, calculateExactMacros ((2600 : ℤ) : ℚ) 40 35 25 = .ok r ∧
        r.proteinCalories + r.carbsCalories + r.fatCalories = ((2600 : ℤ) : ℚ) ∧
        r.totalCalories = ((2600 : ℤ) : ℚ)) ∧
    (∃ t : DietTargets, dietTargets 3000 (-400) 40 35 25 = .ok t ∧
        t.finalProteinCalories + t.finalCarbsCalories + t.finalFatCalories = ((2600 : ℤ) : ℚ) ∧
        t.finalTotalCalories = ((2600 : ℤ) : ℚ)) :=
  ⟨(targets_recover_integer_adjusted_target 2600 40 35 25 (by norm_num)).1,
   (targets_recover_integer_adjusted_target 2600 40 35 25 (by norm_num)).2 3000 (-400) (by norm_num)⟩

/-- C7: when the percentages sum outside 100±0.1, every target computation
(`calculateExactMacros`, `calculateMacroGrams`, the `generateDietPlan`
prologue) fails immediately with the invalid-macro-spec error; the generation
result does not depend on the proposer oracle, so no retry is consumed. -/
theorem invalid_macro_spec_fails_fast (p c f : ℚ) (h : |p + c + f - 100| > 1/10) :
    (∀ targetCalories : ℚ,
      calculateExactMacros targetCalories p c f
        = .error (macroPercentErrorMessage (p + c + f))) ∧
    (∀ totalCalories : ℚ,
      calculateMacroGrams totalCalories p c f
        = .error (macroPercentErrorMessage (p + c + f))) ∧
    (∀ targetCalories deficitSurplus : ℚ,
      dietTargets targetCalories deficitSurplus p c f
        = .error (macroPercentErrorMessage (p + c + f))) ∧
    (∀ targetCalories deficitSurplus : ℚ, ∀ oracle : ℕ → AttemptOutcome,
      generateDietPlan true targetCalories deficitSurplus p c f oracle
        = .error (macroPercentErrorMessage (p + c + f))) := by
  have hb : validateMacroPercentages p c f = false :=
    decide_eq_false (not_le.mpr h)
  refine ⟨fun targetCalories => ?_, fun totalCalories => ?_,
    fun targetCalories deficitSurplus => ?_, fun targetCalories deficitSurplus oracle => ?_⟩
  · simp only [calculateExactMacros, if_pos h]
  · simp only [calculateMacroGrams, hb, Bool.not_false, if_pos]
  · simp only [dietTargets, if_pos h]
  · simp only [generateDietPlan, Bool.not_true, Bool.false_eq_true, if_false,
      dietTargets, if_pos h]

/-- Witness for C7 at the triple 50/30/30 (sum 110). -/
theorem invalid_macro_spec_fails_fast_witness :
    |((50 : ℚ) + 30 + 30) - 100| > 1/10 ∧
    calculateExactMacros 2000 50 30 30
      = .error (macroPercentErrorMessage ((50 : ℚ) + 30 + 30)) ∧
    calculateMacroGrams 2000 50 30 30
      = .error (macroPercentErrorMessage ((50 : ℚ) + 30 + 30)) ∧
    dietTargets 2000 0 50 30 30
      = .error (macroPercentErrorMessage ((50 : ℚ) + 30 + 30)) ∧
    generateDietPlan true 2000 0 50 30 30 (fun _ => .noResult)
      = .error (macroPercentErrorMessage ((50 : ℚ) + 30 + 30)) :=
  ⟨by norm_num,
   (invalid_macro_spec_fails_fast 50 30 30 (by norm_num)).1 2000,
   (invalid_macro_spec_fails_fast 50 30 30 (by norm_num)).2.1 2000,
   (invalid_macro_spec_fails_fast 50 30 30 (by norm_num)).2.2.1 2000 0,
   (invalid_macro_spec_fails_fast 50 30 30 (by norm_num)).2.2.2 2000 0 _⟩

/-- An alternative-marked portion contributes nothing to a meal-totals step. -/
theorem mealTotalsStep_alternative (selectedFoods : SelectedFoods) (t : MacroTotals)
    (e : FoodEntry) (he : e.isAlternative = true) :
    mealTotalsStep selectedFoods t e = t := by
  simp [mealTotalsStep, he]

/-- Folding the meal-totals step over a list equals folding it over the list
with all alternative-marked entries removed. -/
theorem mealTotals_foldl_filter (selectedFoods : SelectedFoods) (l : List FoodEntry)
    (t : MacroTotals) :
    l.foldl (mealTotalsStep selectedFoods) t
      = (l.filter (fun e => !e.isAlternative)).foldl (mealTotalsStep selectedFoods) t := by
  induction l generalizing t with
  | nil => rfl
  | cons e l ih =>
    by_cases he : e.isAlternative = true
    · simp only [List.foldl_cons, List.filter_cons, he, Bool.not_true,
        mealTotalsStep_alternative selectedFoods t e he]
      exact ih t
    · have he' : e.isAlternative = false := by
        cases h : e.isAlternative
        · rfl
        · exact absurd h he
      simp only [List.foldl_cons, List.filter_cons, he', Bool.not_false]
      exact ih _

/-- C2 (amended): `calculateMealTotals` excludes `isAlternative` portions, so
its totals are unchanged both by filtering the alternatives out and by the
presence of any alternative-marked portion (whatever its quantity). (The
`actualTotals` of `validateDietPlanSpecifications`, by contrast, sum every
resolvable portion — see the counterexample.) -/
theorem calculateMealTotals_excludes_alternatives (selectedFoods : SelectedFoods) (meal : Meal) :
    (calculateMealTotals selectedFoods meal
      = calculateMealTotals selectedFoods
          { meal with foods := meal.foods.filter (fun e => !e.isAlternative) }) ∧
    (∀ (l1 l2 : List FoodEntry) (e : FoodEntry), e.isAlternative = true →
      meal.foods = l1 ++ e :: l2 →
      calculateMealTotals selectedFoods meal
        = calculateMealTotals selectedFoods { meal with foods := l1 ++ l2 }) := by
  constructor
  · exact mealTotals_foldl_filter selectedFoods meal.foods {}
  · intro l1 l2 e he hfoods
    simp only [calculateMealTotals, hfoods, List.foldl_append, List.foldl_cons,
      mealTotalsStep_alternative selectedFoods _ e he]

/-- Witness for C2's amended theorem: a two-portion meal whose second portion
is an alternative totals the same as the meal without it. -/
theorem calculateMealTotals_excludes_alternatives_witness :
    calculateMealTotals
        (fun key => if key = "a" ∨ key = "b" then
          some { calories_per_100g := 100, protein_g_per_100g := 10,
                 carbs_g_per_100g := 10, fat_g_per_100g := 10 } else none)
        { id := "m1", name := "Meal 1",
          foods := [⟨"a", 100, some "g", false, none⟩, ⟨"b", 50, some "g", true, some "a"⟩] }
      = calculateMealTotals
        (fun key => if key = "a" ∨ key = "b" then
          some { calories_per_100g := 100, protein_g_per_100g := 10,
                 carbs_g_per_100g := 10, fat_g_per_100g := 10 } else none)
        { id := "m1", name := "Meal 1", foods := [⟨"a", 100, some "g", false, none⟩] } :=
  (calculateMealTotals_excludes_alternatives _ _).2
    [⟨"a", 100, some "g", false, none⟩] [] ⟨"b", 50, some "g", true, some "a"⟩ rfl rfl

/-- C2 counterexample: the totals accumulated by
`validateDietPlanSpecifications` do change when an alternative-marked portion
is present — the validation loop never consults `isAlternative`. -/
theorem validate_includes_alternative_portions_cex :
    (validateDietPlanSpecifications
        [{ id := "m1", name := "Meal 1",
           foods := [⟨"a", 100, some "g", false, none⟩, ⟨"b", 100, some "g", true, some "a"⟩] }]
        (fun key => if key = "a" ∨ key = "b" then
          some { calories_per_100g := 100, protein_g_per_100g := 0,
                 carbs_g_per_100g := 0, fat_g_per_100g := 0 } else none)
        0 0 0 0 0 0 0).actualTotals.calories
    ≠ (validateDietPlanSpecifications
        [{ id := "m1", name := "Meal 1", foods := [⟨"a", 100, some "g", false, none⟩] }]
        (fun key => if key = "a" ∨ key = "b" then
          some { calories_per_100g := 100, protein_g_per_100g := 0,
                 carbs_g_per_100g := 0, fat_g_per_100g := 0 } else none)
        0 0 0 0 0 0 0).actualTotals.calories := by
  simp only [validateDietPlanSpecifications, accumulateValidationTotals, List.foldl_cons,
    List.foldl_nil, jsRound_eq_floor]
  norm_num

/-- C3: a plan whose computed actual totals deviate from the targets by zero
in every dimension (grams, calories, and the rounded percent-of-calories)
validates as `isValid = true`; a calorie deviation of exactly 151 kcal with
every other dimension within tolerance yields `isValid = false` with the
calorie-specific message in `errors`; and `isValid` is true exactly when
`errors` is empty. -/
theorem validate_zero_dev_valid_and_151_invalid (ms : List Meal) (sf : SelectedFoods)
    (tc tp tcb tf pp cp fp : ℚ) :
    (((validateDietPlanSpecifications ms sf tc tp tcb tf pp cp fp).actualTotals.calories = tc) →
     ((validateDietPlanSpecifications ms sf tc tp tcb tf pp cp fp).actualTotals.protein = tp) →
     ((validateDietPlanSpecifications ms sf tc tp tcb tf pp cp fp).actualTotals.carbs = tcb) →
     ((validateDietPlanSpecifications ms sf tc tp tcb tf pp cp fp).actualTotals.fat = tf) →
     ((validateDietPlanSpecifications ms sf tc tp tcb tf pp cp fp).actualTotals.proteinPercent
        = .fin pp) →
     ((validateDietPlanSpecifications ms sf tc tp tcb tf pp cp fp).actualTotals.carbsPercent
        = .fin cp) →
     ((validateDietPlanSpecifications ms sf tc tp tcb tf pp cp fp).actualTotals.fatPercent
        = .fin fp) →
     (validateDietPlanSpecifications ms sf tc tp tcb tf pp cp fp).isValid = true) ∧
    ((|(validateDietPlanSpecifications ms sf tc tp tcb tf pp cp fp).actualTotals.calories - tc|
        = 151) →
     ((validateDietPlanSpecifications ms sf tc tp tcb tf pp cp fp).actualTotals.protein = tp) →
     ((validateDietPlanSpecifications ms sf tc tp tcb tf pp cp fp).actualTotals.carbs = tcb) →
     ((validateDietPlanSpecifications ms sf tc tp tcb tf pp cp fp).actualTotals.fat = tf) →
     (jnumDeviationExceeds
        (validateDietPlanSpecifications ms sf tc tp tcb tf pp cp fp).actualTotals.proteinPercent
        pp 3 = false) →
     (jnumDeviationExceeds
        (validateDietPlanSpecifications ms sf tc tp tcb tf pp cp fp).actualTotals.carbsPercent
        cp 3 = false) →
     (jnumDeviationExceeds
        (validateDietPlanSpecifications ms sf tc tp tcb tf pp cp fp).actualTotals.fatPercent
        fp 3 = false) →
     ((validateDietPlanSpecifications ms sf tc tp tcb tf pp cp fp).isValid = false ∧
      calorieDeviationError tc
          (validateDietPlanSpecifications ms sf tc tp tcb tf pp cp fp).actualTotals.calories 151
        ∈ (validateDietPlanSpecifications ms sf tc tp tcb tf pp cp fp).errors)) ∧
    ((validateDietPlanSpecifications ms sf tc tp tcb tf pp cp fp).isValid
      = (validateDietPlanSpecifications ms sf tc tp tcb tf pp cp fp).errors.isEmpty) := by
  refine ⟨?_, ?_, ?_⟩
  · intro h1 h2 h3 h4 h5 h6 h7
    simp only [validateDietPlanSpecifications] at h1 h2 h3 h4 h5 h6 h7 ⊢
    rw [h5, h6, h7, h1, h2, h3, h4]
    norm_num [jnumDeviationExceeds]
  · intro h1 h2 h3 h4 h5 h6 h7
    simp only [validateDietPlanSpecifications] at h1 h2 h3 h4 h5 h6 h7 ⊢
    rw [h5, h6, h7, h2, h3, h4, h1]
    norm_num
  · simp only [validateDietPlanSpecifications]

/-- Witness for C3: a plan matching its targets exactly validates; the same
plan with 2151 actual kcal against a 2000 kcal target fails with the calorie
message. -/
theorem validate_zero_dev_valid_and_151_invalid_witness :
    (validateDietPlanSpecifications
        [{ id := "m1", name := "Meal 1", foods := [⟨"x", 100, some "g", false, none⟩] }]
        (fun key => if key = "x" then
          some { calories_per_100g := 2000, protein_g_per_100g := 125,
                 carbs_g_per_100g := 225, fat_g_per_100g := 667/10 } else none)
        2000 125 225 (667/10) 25 45 30).isValid = true ∧
    ((validateDietPlanSpecifications
        [{ id := "m1", name := "Meal 1", foods := [⟨"y", 100, some "g", false, none⟩] }]
        (fun key => if key = "y" then
          some { calories_per_100g := 2151, protein_g_per_100g := 125,
                 carbs_g_per_100g := 225, fat_g_per_100g := 667/10 } else none)
        2000 125 225 (667/10) 25 45 30).isValid = false ∧
      calorieDeviationError 2000
          (validateDietPlanSpecifications
            [{ id := "m1", name := "Meal 1", foods := [⟨"y", 100, some "g", false, none⟩] }]
            (fun key => if key = "y" then
              some { calories_per_100g := 2151, protein_g_per_100g := 125,
                     carbs_g_per_100g := 225, fat_g_per_100g := 667/10 } else none)
            2000 125 225 (667/10) 25 45 30).actualTotals.calories 151
        ∈ (validateDietPlanSpecifications
            [{ id := "m1", name := "Meal 1", foods := [⟨"y", 100, some "g", false, none⟩] }]
            (fun key => if key = "y" then
              some { calories_per_100g := 2151, protein_g_per_100g := 125,
                     carbs_g_per_100g := 225, fat_g_per_100g := 667/10 } else none)
            2000 125 225 (667/10) 25 45 30).errors) ∧
    ((validateDietPlanSpecifications
        [{ id := "m1", name := "Meal 1", foods := [⟨"x", 100, some "g", false, none⟩] }]
        (fun key => if key = "x" then
          some { calories_per_100g := 2000, protein_g_per_100g := 125,
                 carbs_g_per_100g := 225, fat_g_per_100g := 667/10 } else none)
        2000 125 225 (667/10) 25 45 30).isValid
      = (validateDietPlanSpecifications
        [{ id := "m1", name := "Meal 1", foods := [⟨"x", 100, some "g", false, none⟩] }]
        (fun key => if key = "x" then
          some { calories_per_100g := 2000, protein_g_per_100g := 125,
                 carbs_g_per_100g := 225, fat_g_per_100g := 667/10 } else none)
        2000 125 225 (667/10) 25 45 30).errors.isEmpty) := by
  refine ⟨(validate_zero_dev_valid_and_151_invalid _ _ _ _ _ _ _ _ _).1
      ?_ ?_ ?_ ?_ ?_ ?_ ?_,
    (validate_zero_dev_valid_and_151_invalid _ _ _ _ _ _ _ _ _).2.1
      ?_ ?_ ?_ ?_ ?_ ?_ ?_,
    (validate_zero_dev_valid_and_151_invalid _ _ _ _ _ _ _ _ _).2.2⟩
  all_goals
    norm_num [validateDietPlanSpecifications, accumulateValidationTotals, jsDivNum,
      jnumMulPos, jnumRound, jnumDeviationExceeds, round1, jsRound_eq_floor]

/-- C10 (amended): when the accumulated totals are all zero (for example no
food resolves), the three percent fields are `NaN`, no percentage-deviation
error can be added (every `NaN` comparison is false), and the plan can only
be reported invalid through the absolute calorie and gram checks. -/
theorem validate_all_zero_totals_nan_percents (ms : List Meal) (sf : SelectedFoods)
    (tc tp tcb tf pp cp fp : ℚ)
    (h : accumulateValidationTotals ms sf = ({} : MacroTotals)) :
    (validateDietPlanSpecifications ms sf tc tp tcb tf pp cp fp).actualTotals.proteinPercent
        = .nan ∧
    (validateDietPlanSpecifications ms sf tc tp tcb tf pp cp fp).actualTotals.carbsPercent
        = .nan ∧
    (validateDietPlanSpecifications ms sf tc tp tcb tf pp cp fp).actualTotals.fatPercent
        = .nan ∧
    (validateDietPlanSpecifications ms sf tc tp tcb tf pp cp fp).errors
      ⊆ [calorieDeviationError tc 0 |0 - tc|, proteinDeviationError tp 0 |0 - tp|,
         carbsDeviationError tcb 0 |0 - tcb|, fatDeviationError tf 0 |0 - tf|] := by
  simp only [validateDietPlanSpecifications, h]
  norm_num [jsDivNum, jnumMulPos, jnumRound, jnumDeviationExceeds]
  refine ⟨?_, ?_, ?_, ?_⟩ <;> · split_ifs <;> simp

/-- Witness for C10's amended theorem: the empty plan resolves no food, so
its totals are zero and the percent fields are `NaN`. -/
theorem validate_all_zero_totals_nan_percents_witness :
    (validateDietPlanSpecifications [] (fun _ => none) 2000 125 225 (667/10) 25 45 30).actualTotals.proteinPercent
        = .nan ∧
    (validateDietPlanSpecifications [] (fun _ => none) 2000 125 225 (667/10) 25 45 30).actualTotals.carbsPercent
        = .nan ∧
    (validateDietPlanSpecifications [] (fun _ => none) 2000 125 225 (667/10) 25 45 30).actualTotals.fatPercent
        = .nan ∧
    (validateDietPlanSpecifications [] (fun _ => none) 2000 125 225 (667/10) 25 45 30).errors
      ⊆ [calorieDeviationError 2000 0 |0 - 2000|, proteinDeviationError 125 0 |0 - 125|,
         carbsDeviationError 225 0 |0 - 225|, fatDeviationError (667/10) 0 |0 - 667/10|] :=
  validate_all_zero_totals_nan_percents [] (fun _ => none) 2000 125 225 (667/10) 25 45 30 rfl

/-- C10 counterexample: a resolvable zero-calorie, high-protein portion makes
total calories 0 with positive protein; the protein percent field is then
`Infinity`, not `NaN`, and a percentage-deviation error IS added. -/
theorem validate_zero_calorie_infinite_percent_cex :
    (validateDietPlanSpecifications
        [{ id := "m1", name := "Meal 1", foods := [⟨"p", 100, some "g", false, none⟩] }]
        (fun key => if key = "p" then
          some { calories_per_100g := 0, protein_g_per_100g := 50,
                 carbs_g_per_100g := 0, fat_g_per_100g := 0 } else none)
        0 50 0 0 25 45 30).actualTotals.proteinPercent = .posInf ∧
    proteinPercentError 25 .posInf
      ∈ (validateDietPlanSpecifications
        [{ id := "m1", name := "Meal 1", foods := [⟨"p", 100, some "g", false, none⟩] }]
        (fun key => if key = "p" then
          some { calories_per_100g := 0, protein_g_per_100g := 50,
                 carbs_g_per_100g := 0, fat_g_per_100g := 0 } else none)
        0 50 0 0 25 45 30).errors := by
  constructor <;>
    norm_num [validateDietPlanSpecifications, accumulateValidationTotals, jsDivNum,
      jnumMulPos, jnumRound, jnumDeviationExceeds, round1, jsRound_eq_floor]

/-- Each coordinate update of the NNLS sweep keeps every component ≥ 0 (the
update is clamped at zero). -/
theorem nnlsStep_nonneg (AtA : ℕ → ℕ → ℚ) (Atb : ℕ → ℚ) (n : ℕ) (acc : List ℚ × ℚ) (i : ℕ)
    (hx : ∀ v ∈ acc.1, 0 ≤ v) :
    ∀ v ∈ (nnlsStep AtA Atb n acc i).1, 0 ≤ v := by
  intro v hv
  simp only [nnlsStep] at hv
  rcases List.mem_or_eq_of_mem_set hv with h | h
  · exact hx v h
  · subst h
    split <;> split <;>
      first
        | exact le_refl (0 : ℚ)
        | (rename_i hraw; exact le_of_not_lt hraw)

/-- The whole sweep keeps every component ≥ 0. -/
theorem nnlsSweep_nonneg (AtA : ℕ → ℕ → ℚ) (Atb : ℕ → ℚ) (n : ℕ) (x : List ℚ)
    (hx : ∀ v ∈ x, 0 ≤ v) :
    ∀ v ∈ (nnlsSweep AtA Atb n x).1, 0 ≤ v := by
  rw [nnlsSweep]
  generalize hacc : ((x, (0 : ℚ)) : List ℚ × ℚ) = acc
  have hx' : ∀ v ∈ acc.1, 0 ≤ v := by rw [← hacc]; exact hx
  clear hacc hx
  induction List.range n generalizing acc with
  | nil => exact hx'
  | cons i l ih =>
    simp only [List.foldl_cons]
    exact ih _ (nnlsStep_nonneg AtA Atb n acc i hx')

/-- The bounded NNLS iteration keeps every component ≥ 0. -/
theorem nnlsIterate_nonneg (AtA : ℕ → ℕ → ℚ) (Atb : ℕ → ℚ) (n : ℕ) (fuel : ℕ) (x : List ℚ)
    (hx : ∀ v ∈ x, 0 ≤ v) :
    ∀ v ∈ nnlsIterate AtA Atb n fuel x, 0 ≤ v := by
  induction fuel generalizing x with
  | zero => exact hx
  | succ fuel ih =>
    simp only [nnlsIterate]
    split
    · exact nnlsSweep_nonneg AtA Atb n x hx
    · exact ih _ (nnlsSweep_nonneg AtA Atb n x hx)

/-- C4: every vector returned by `nnlsSolve` has only non-negative
components; and on a non-empty candidate set, whenever the computed iterate
is the all-zero vector (its component sum is ≤ 0) the solver returns `none`
rather than presenting the zero vector as a solution. -/
theorem nnlsSolve_nonneg_and_none_on_zero :
    (∀ (A : List (List ℚ)) (b : List ℚ) (maxIter : ℕ) (xs : List ℚ),
      nnlsSolve A b maxIter = some xs → ∀ v ∈ xs, 0 ≤ v) ∧
    (∀ (A : List (List ℚ)) (b : List ℚ) (maxIter : ℕ),
      0 < (A.headD []).length →
      (nnlsIterate (nnlsAtA A) (nnlsAtb A b) (A.headD []).length maxIter
          (List.replicate (A.headD []).length 0)).sum ≤ 0 →
      nnlsSolve A b maxIter = none) := by
  constructor
  · intro A b maxIter xs hsome v hv
    simp only [nnlsSolve] at hsome
    split at hsome
    · cases hsome
      simp at hv
    · split at hsome
      · cases hsome
      · cases hsome
        refine nnlsIterate_nonneg _ _ _ _ _ ?_ v hv
        intro w hw
        rw [List.eq_of_mem_replicate hw]
  · intro A b maxIter hn hsum
    simp only [nnlsSolve]
    rw [if_neg (by omega), if_pos hsum]

/-- Witness for C4 on the 1×1 systems `x = 2` (solved, the output component
2 is non-negative) and `x = −1` (iterate clamps to zero, solver returns
`none`). -/
theorem nnlsSolve_nonneg_and_none_on_zero_witness :
    ((0 : ℚ) ≤ 2) ∧ nnlsSolve [[(1 : ℚ)]] [(-1 : ℚ)] 1 = none := by
  constructor
  · refine nnlsSolve_nonneg_and_none_on_zero.1 [[(1 : ℚ)]] [(2 : ℚ)] 1 [(2 : ℚ)] ?_ 2 ?_
    · norm_num [nnlsSolve, nnlsIterate, nnlsSweep, nnlsStep, nnlsAtA, nnlsAtb, matIdx, vecIdx,
        List.range_succ]
    · simp
  · refine nnlsSolve_nonneg_and_none_on_zero.2 [[(1 : ℚ)]] [(-1 : ℚ)] 1 (by norm_num) ?_
    norm_num [nnlsIterate, nnlsSweep, nnlsStep, nnlsAtA, nnlsAtb, matIdx, vecIdx,
      List.range_succ]

/-- C5 counterexample: on an empty candidate set `nnlsSolve` returns the
empty vector `some []` — a success-shaped value — not the `null` failure
signal the spec describes. -/
theorem nnlsSolve_empty_not_null_cex :
    nnlsSolve ([] : List (List ℚ)) ([] : List ℚ) 500 = some [] ∧
    some ([] : List ℚ) ≠ (none : Option (List ℚ)) := by
  constructor
  · simp [nnlsSolve]
  · simp

/-- C5 (amended): with an empty candidate set (`n = 0`) `nnlsSolve` returns
immediately — before any arithmetic, so it cannot divide by zero — but the
value returned is the empty vector `some []`, not `none`. -/
theorem nnlsSolve_empty_candidate_set (A : List (List ℚ)) (b : List ℚ) (maxIter : ℕ)
    (h : (A.headD []).length = 0) :
    nnlsSolve A b maxIter = some [] := by
  simp only [nnlsSolve]
  rw [if_pos h]

/-- Witness for C5's amended theorem at the degenerate empty system. -/
theorem nnlsSolve_empty_candidate_set_witness :
    nnlsSolve ([] : List (List ℚ)) ([] : List ℚ) 250 = some [] :=
  nnlsSolve_empty_candidate_set [] [] 250 rfl

/-- C9: whenever `redistributePortionsForMacros` returns an adjusted plan,
the plan's calories were within 200 kcal of target on entry AND the adjusted
plan's final calories are within 200 kcal of target — outside either bound
the routine returns `none` (entry gate, line 1611; final sanity check, line
1692). -/
theorem redistributePortionsForMacros_calorie_gate (meals : List Meal) (sf : SelectedFoods)
    (targets : MacroTotals) (maxPercent : ℚ) (iterations : ℕ) (ms : List Meal)
    (h : redistributePortionsForMacros meals sf targets maxPercent iterations = some ms) :
    |(rdComputeTotals sf meals).calories - targets.calories| ≤ 200 ∧
    |rdFinalCalories sf ms - targets.calories| ≤ 200 := by
  simp only [redistributePortionsForMacros] at h
  split at h
  · cases h
  · next hentry =>
    split at h
    · cases h
    · next hfin =>
      cases h
      exact ⟨not_lt.mp hentry, not_lt.mp hfin⟩

/-- Witness for C9: the empty plan against zero targets is returned
unchanged, with both calorie checks at deviation 0. -/
theorem redistributePortionsForMacros_calorie_gate_witness :
    |(rdComputeTotals (fun _ => none) []).calories - ({} : MacroTotals).calories| ≤ 200 ∧
    |rdFinalCalories (fun _ => none) [] - ({} : MacroTotals).calories| ≤ 200 := by
  refine redistributePortionsForMacros_calorie_gate [] (fun _ => none) {} 20 1 [] ?_
  norm_num [redistributePortionsForMacros, rdLoop, rdComputeTotals, rawComputeTotals,
    rdFinalCalories, round1, jsRound_eq_floor]

/-- JS `Math.round` is monotone. -/
theorem jsRound_mono {x y : ℚ} (h : x ≤ y) : jsRound x ≤ jsRound y := by
  rw [jsRound_eq_floor, jsRound_eq_floor]
  exact Int.floor_le_floor (by linarith)

/-- A raw deficit of at most 1 gram still rounds (to one decimal) to at most
1 gram. -/
theorem round1_le_one {x : ℚ} (hx : x ≤ 1) : round1 x ≤ 1 := by
  rw [round1]
  have h1 : jsRound (x * 10) ≤ jsRound 10 := jsRound_mono (by linarith)
  have h2 : jsRound (10 : ℚ) = 10 := by rw [jsRound_eq_floor]; norm_num
  rw [h2] at h1
  have h3 : ((jsRound (x * 10) : ℤ) : ℚ) ≤ (10 : ℚ) := by exact_mod_cast h1
  linarith

/-- C8: on a plan whose raw per-macro deficits are each at most 1 gram and
whose calorie deviation is at most 50 kcal, `macroCorrectionLoop` is a no-op:
it returns the meals and the `selectedFoods` lookup unchanged with
`correctionMealAdded = false`, whatever the profile oracle. -/
theorem macroCorrectionLoop_noop_within_tolerance (meals : List Meal) (sf : SelectedFoods)
    (targets : MacroTotals) (fetchProfile : String → Option MacroProfile) (now : ℕ)
    (maxCandidates : ℕ) (maxCorrectionCalories : ℚ)
    (hp : targets.protein - (rawComputeTotals sf meals).protein ≤ 1)
    (hc : targets.carbs - (rawComputeTotals sf meals).carbs ≤ 1)
    (hf : targets.fat - (rawComputeTotals sf meals).fat ≤ 1)
    (hcal : |targets.calories - (rawComputeTotals sf meals).calories| ≤ 50) :
    macroCorrectionLoop meals sf targets fetchProfile now maxCandidates maxCorrectionCalories
      = { meals := meals, selectedFoods := sf, correctionMealAdded := false } := by
  have hp' : ¬(round1 (targets.protein - (rawComputeTotals sf meals).protein) > 1) :=
    not_lt.mpr (round1_le_one hp)
  have hc' : ¬(round1 (targets.carbs - (rawComputeTotals sf meals).carbs) > 1) :=
    not_lt.mpr (round1_le_one hc)
  have hf' : ¬(round1 (targets.fat - (rawComputeTotals sf meals).fat) > 1) :=
    not_lt.mpr (round1_le_one hf)
  simp only [macroCorrectionLoop]
  split
  · rfl
  · next hcond => exact absurd ⟨hp', hc', hf', hcal⟩ hcond

/-- Witness for C8: the empty plan against zero targets is left untouched. -/
theorem macroCorrectionLoop_noop_within_tolerance_witness :
    macroCorrectionLoop [] (fun _ => none) {} FALLBACK_PROFILES 0 3 800
      = { meals := [], selectedFoods := fun _ => none, correctionMealAdded := false } := by
  refine macroCorrectionLoop_noop_within_tolerance [] (fun _ => none) {} FALLBACK_PROFILES
    0 3 800 ?_ ?_ ?_ ?_ <;>
    norm_num [rawComputeTotals]

/-- The attempt loop only consults the oracle at the attempt numbers in its
worklist. -/
theorem generateDietPlanLoop_congr (o1 o2 : ℕ → AttemptOutcome) (t : DietTargets)
    (pp cp fp : ℚ) (l : List ℕ) (h : ∀ k ∈ l, o1 k = o2 k) :
    generateDietPlanLoop o1 t pp cp fp l = generateDietPlanLoop o2 t pp cp fp l := by
  induction l with
  | nil => rfl
  | cons a l ih =>
    have ih' := ih (fun k hk => h k (List.mem_cons_of_mem a hk))
    simp only [generateDietPlanLoop, h a (List.mem_cons_self a l)]
    cases o2 a with
    | noResult => exact ih'
    | failed msg isQuota =>
      cases isQuota with
      | true => rfl
      | false => exact ih'
    | plan m s n r => exact if_congr Iff.rfl rfl ih'

/-- If every proposed plan in the worklist fails strict validation and no
quota error is thrown, the loop ends in the attempts-exhausted error. -/
theorem generateDietPlanLoop_exhausts (oracle : ℕ → AttemptOutcome) (t : DietTargets)
    (pp cp fp : ℚ) (l : List ℕ)
    (hfail : ∀ k ∈ l, ∀ m s n r, oracle k = .plan m s n r →
      (validateDietPlanSpecifications m s t.adjustedTargetCalories t.proteinGrams
        t.carbsGrams t.adjustedFatGrams pp cp fp).isValid = false)
    (hq : ∀ k ∈ l, ∀ msg, oracle k ≠ .failed msg true) :
    generateDietPlanLoop oracle t pp cp fp l = .error attemptsExhaustedMessage := by
  induction l with
  | nil => rfl
  | cons a l ih =>
    have ih' := ih (fun k hk => hfail k (List.mem_cons_of_mem a hk))
      (fun k hk => hq k (List.mem_cons_of_mem a hk))
    simp only [generateDietPlanLoop]
    cases ho : oracle a with
    | noResult => exact ih'
    | failed msg isQuota =>
      cases isQuota with
      | true => exact absurd ho (hq a (List.mem_cons_self a l) msg)
      | false => exact ih'
    | plan m s n r =>
      show (if (validateDietPlanSpecifications m s t.adjustedTargetCalories t.proteinGrams
          t.carbsGrams t.adjustedFatGrams pp cp fp).isValid = true then
        Except.ok (some ⟨m, s, n, r⟩) else generateDietPlanLoop oracle t pp cp fp l)
        = Except.error attemptsExhaustedMessage
      rw [hfail a (List.mem_cons_self a l) m s n r ho]
      simp only [Bool.false_eq_true, if_false]
      exact ih'

/-- If the loop accepts a plan, that plan passed strict validation. -/
theorem generateDietPlanLoop_sound (oracle : ℕ → AttemptOutcome) (t : DietTargets)
    (pp cp fp : ℚ) (l : List ℕ) (p : GeneratedPlan)
    (h : generateDietPlanLoop oracle t pp cp fp l = .ok (some p)) :
    (validateDietPlanSpecifications p.meals p.selectedFoods t.adjustedTargetCalories
      t.proteinGrams t.carbsGrams t.adjustedFatGrams pp cp fp).isValid = true := by
  induction l with
  | nil => cases h
  | cons a l ih =>
    simp only [generateDietPlanLoop] at h
    cases ho : oracle a with
    | noResult =>
      rw [ho] at h
      exact ih h
    | failed msg isQuota =>
      rw [ho] at h
      cases isQuota with
      | true =>
        replace h : Except.error msg = Except.ok (some p) := h
        cases h
      | false => exact ih h
    | plan m s n r =>
      rw [ho] at h
      replace h : (if (validateDietPlanSpecifications m s t.adjustedTargetCalories
          t.proteinGrams t.carbsGrams t.adjustedFatGrams pp cp fp).isValid = true then
        Except.ok (some ⟨m, s, n, r⟩) else generateDietPlanLoop oracle t pp cp fp l)
        = Except.ok (some p) := h
      split at h
      · next hvalid =>
        cases h
        exact hvalid
      · exact ih h

/-- C6: `generateDietPlan` consults the proposer only on attempts 1..10 (two
oracles agreeing there produce identical results); when every attempt's plan
fails strict validation (and no quota abort occurs) it fails with the
attempts-exhausted error rather than returning a best-effort plan; and any
plan it does return passed strict validation. -/
theorem generateDietPlan_bounded_and_sound :
    (∀ (o1 o2 : ℕ → AttemptOutcome) (ai : Bool) (tc ds pp cp fp : ℚ),
      (∀ k, 1 ≤ k → k ≤ maxAttempts → o1 k = o2 k) →
      generateDietPlan ai tc ds pp cp fp o1 = generateDietPlan ai tc ds pp cp fp o2) ∧
    (∀ (oracle : ℕ → AttemptOutcome) (tc ds pp cp fp : ℚ) (t : DietTargets),
      dietTargets tc ds pp cp fp = .ok t →
      (∀ k, 1 ≤ k → k ≤ maxAttempts → ∀ m s n r, oracle k = .plan m s n r →
        (validateDietPlanSpecifications m s t.adjustedTargetCalories t.proteinGrams
          t.carbsGrams t.adjustedFatGrams pp cp fp).isValid = false) →
      (∀ k, 1 ≤ k → k ≤ maxAttempts → ∀ msg, oracle k ≠ .failed msg true) →
      generateDietPlan true tc ds pp cp fp oracle = .error attemptsExhaustedMessage) ∧
    (∀ (oracle : ℕ → AttemptOutcome) (tc ds pp cp fp : ℚ) (t : DietTargets) (p : GeneratedPlan),
      dietTargets tc ds pp cp fp = .ok t →
      generateDietPlan true tc ds pp cp fp oracle = .ok (some p) →
      (validateDietPlanSpecifications p.meals p.selectedFoods t.adjustedTargetCalories
        t.proteinGrams t.carbsGrams t.adjustedFatGrams pp cp fp).isValid = true) := by
  refine ⟨?_, ?_, ?_⟩
  · intro o1 o2 ai tc ds pp cp fp h
    cases ai with
    | false => rfl
    | true =>
      simp only [generateDietPlan]
      cases ht : dietTargets tc ds pp cp fp with
      | error e => rfl
      | ok t =>
        exact generateDietPlanLoop_congr o1 o2 t pp cp fp (List.range' 1 maxAttempts)
          (fun k hk => h k (List.mem_range'_1.mp hk).1 (by
            have := (List.mem_range'_1.mp hk).2
            omega))
  · intro oracle tc ds pp cp fp t ht hfail hq
    simp only [generateDietPlan, ht]
    exact generateDietPlanLoop_exhausts oracle t pp cp fp (List.range' 1 maxAttempts)
      (fun k hk => hfail k (List.mem_range'_1.mp hk).1 (by
        have := (List.mem_range'_1.mp hk).2
        omega))
      (fun k hk => hq k (List.mem_range'_1.mp hk).1 (by
        have := (List.mem_range'_1.mp hk).2
        omega))
  · intro oracle tc ds pp cp fp t p ht h
    simp only [generateDietPlan, ht] at h
    exact generateDietPlanLoop_sound oracle t pp cp fp (List.range' 1 maxAttempts) p h

/-- Witness for C6: an always-failing proposer exhausts all attempts into the
descriptive error; an oracle-independent result at equal oracles; and an
accepted plan that did pass strict validation. -/
theorem generateDietPlan_bounded_and_sound_witness :
    (generateDietPlan true 2000 0 25 45 30 (fun _ => .noResult)
      = generateDietPlan true 2000 0 25 45 30 (fun _ => .noResult)) ∧
    (generateDietPlan true 2000 0 25 45 30 (fun _ => .noResult)
      = .error attemptsExhaustedMessage) ∧
    ((validateDietPlanSpecifications
        [{ id := "m1", name := "Meal 1", foods := [⟨"x", 100, some "g", false, none⟩] }]
        (fun key => if key = "x" then
          some { calories_per_100g := 2000, protein_g_per_100g := 125,
                 carbs_g_per_100g := 225, fat_g_per_100g := 667/10 } else none)
        (dietTargetsCore 2000 25 45 30).adjustedTargetCalories
        (dietTargetsCore 2000 25 45 30).proteinGrams
        (dietTargetsCore 2000 25 45 30).carbsGrams
        (dietTargetsCore 2000 25 45 30).adjustedFatGrams
        25 45 30).isValid = true) := by
  have hDT : dietTargets 2000 0 25 45 30 = .ok (dietTargetsCore 2000 25 45 30) := by
    simp only [dietTargets]
    rw [if_neg (by norm_num)]
    norm_num
  refine ⟨generateDietPlan_bounded_and_sound.1 _ _ true 2000 0 25 45 30 (fun k _ _ => rfl),
    generateDietPlan_bounded_and_sound.2.1 (fun _ => .noResult) 2000 0 25 45 30
      (dietTargetsCore 2000 25 45 30) hDT
      (fun k _ _ m s n r h => nomatch h) (fun k _ _ msg h => nomatch h),
    generateDietPlan_bounded_and_sound.2.2
      (fun _ => .plan
        [{ id := "m1", name := "Meal 1", foods := [⟨"x", 100, some "g", false, none⟩] }]
        (fun key => if key = "x" then
          some { calories_per_100g := 2000, protein_g_per_100g := 125,
                 carbs_g_per_100g := 225, fat_g_per_100g := 667/10 } else none) "" "")
      2000 0 25 45 30 (dietTargetsCore 2000 25 45 30)
      ⟨[{ id := "m1", name := "Meal 1", foods := [⟨"x", 100, some "g", false, none⟩] }],
        (fun key => if key = "x" then
          some { calories_per_100g := 2000, protein_g_per_100g := 125,
                 carbs_g_per_100g := 225, fat_g_per_100g := 667/10 } else none), "", ""⟩
      hDT ?_⟩
  have hrange : List.range' 1 maxAttempts = [1, 2, 3, 4, 5, 6, 7, 8, 9, 10] := by decide
  simp only [generateDietPlan, Bool.not_true, Bool.false_eq_true, if_false, hDT, hrange,
    generateDietPlanLoop]
  rw [if_pos ?hvalid]
  case hvalid =>
    norm_num [validateDietPlanSpecifications, accumulateValidationTotals, dietTargetsCore,
      jsDivNum, jnumMulPos, jnumRound, jnumDeviationExceeds, round1, jsRound_eq_floor]
